import Mathlib

/-!
Verification of the crypto-tracker backend (crypto-tracker-backend/app.py).

Shallow embedding conventions:
* Python floats are modelled as exact rationals (ℚ); all claims here are about
  the arithmetic formulas, stated before presentation rounding.
* Calendar dates are modelled as integers counting days; day 0 is START_DATE
  (2025-01-25).  A step interval (timedelta) is a natural number of days.
* The price cache / adapter pair (get_price_on_date) is modelled as an oracle
  function from a date to an optional pair of (bitcoin, ethereum) prices;
  a None result is the "no price data for that date" case.
* Fallible arithmetic (division) is additionally embedded in an Option-valued
  "checked" variant, where cdiv returns none on a zero denominator; proving a
  checked function equal to some of the plain function shows the division-by-
  zero case is unreachable.
-/

namespace CryptoTracker

/-- app.py line 45: DEFAULT_BTC_INVEST = 100. -/
def DEFAULT_BTC_INVEST : ℚ := 100

/-- app.py line 46: DEFAULT_ETH_INVEST = 50. -/
def DEFAULT_ETH_INVEST : ℚ := 50

/-- app.py line 48: DEFAULT_BTC_TOTAL = 102 ($100 + $2 fee). -/
def DEFAULT_BTC_TOTAL : ℚ := 102

/-- app.py line 49: DEFAULT_ETH_TOTAL = 51.8 ($50 + $1.8 fee). -/
def DEFAULT_ETH_TOTAL : ℚ := 51.8

/-- app.py lines 249-253: the frequency-to-interval mapping of
simulate_investments (daily = 1 day, weekly = 7 days, monthly = 30 days,
anything else defaults to weekly). -/
def interval_of_frequency (frequency : String) : ℕ :=
  if frequency = "daily" then 1
  else if frequency = "weekly" then 7
  else if frequency = "monthly" then 30
  else 7

/-- The four accumulators of simulate_investments (app.py lines 245-246):
btc_total_usd, eth_total_usd, btc_held, eth_held. -/
structure SimState where
  btc_total_usd : ℚ
  eth_total_usd : ℚ
  btc_held : ℚ
  eth_held : ℚ
  deriving DecidableEq, Repr

/-- One iteration of the while-loop body of simulate_investments
(app.py lines 255-274) given the counter k (the variable weeks) and the
price lookup result for the date of this step.  A missing price skips the
step without crediting any purchase (lines 257-260); otherwise bitcoin is
always bought (lines 263-265) and ethereum only when k is even
(lines 268-271). -/
def simStep (btc_amount eth_amount : ℚ) (k : ℕ) (price : Option (ℚ × ℚ))
    (s : SimState) : SimState :=
  match price with
  | none => s
  | some (btc_price, eth_price) =>
    let s1 : SimState :=
      { s with btc_held := s.btc_held + btc_amount / btc_price,
               btc_total_usd := s.btc_total_usd + DEFAULT_BTC_TOTAL }
    if k % 2 = 0 then
      { s1 with eth_held := s1.eth_held + eth_amount / eth_price,
                eth_total_usd := s1.eth_total_usd + DEFAULT_ETH_TOTAL }
    else s1

/-- The first n iterations of the simulate_investments loop: step k runs on
date start + k * interval with counter k (weeks is incremented on every
iteration, lines 259 and 274, so it always equals the step index). -/
def runSim (gp : ℤ → Option (ℚ × ℚ)) (start : ℤ) (interval : ℕ)
    (btc_amount eth_amount : ℚ) : ℕ → SimState
  | 0 => ⟨0, 0, 0, 0⟩
  | n + 1 =>
    simStep btc_amount eth_amount n (gp (start + n * interval))
      (runSim gp start interval btc_amount eth_amount n)

/-- Number of iterations of the loop `while current_date <= TODAY` stepping
by a positive interval of days from start (app.py line 255): the dates
visited are start, start+interval, ..., up to and including today. -/
def numSteps (start today : ℤ) (interval : ℕ) : ℕ :=
  if start ≤ today then (today - start).toNat / interval + 1 else 0

/-- app.py lines 244-276, simulate_investments: runs the DCA loop from
start up to today (inclusive) at the interval given by frequency and
returns the four accumulated totals.  The price oracle gp stands for
get_price_on_date. -/
def simulate_investments (gp : ℤ → Option (ℚ × ℚ)) (start today : ℤ)
    (frequency : String) (btc_amount eth_amount : ℚ) : SimState :=
  runSim gp start (interval_of_frequency frequency) btc_amount eth_amount
    (numSteps start today (interval_of_frequency frequency))

/-- The quantities computed by the portfolio handler, app.py
lines 543-552 (before the presentation rounding of lines 554-567). -/
structure PortfolioView where
  btc_value : ℚ
  eth_value : ℚ
  total_value : ℚ
  total_invested : ℚ
  profit_loss : ℚ
  btc_percent : ℚ
  eth_percent : ℚ
  total_percent : ℚ
  deriving DecidableEq, Repr

/-- app.py lines 543-552: valuation and percent computations of the
portfolio handler. -/
def portfolio_view (btc_held eth_held btc_invested eth_invested
    btc_price eth_price : ℚ) : PortfolioView :=
  let btc_value := btc_held * btc_price
  let eth_value := eth_held * eth_price
  let total_value := btc_value + eth_value
  let total_invested := btc_invested + eth_invested
  let profit_loss := total_value - total_invested
  let btc_percent :=
    if btc_invested > 0 then (btc_value - btc_invested) / btc_invested * 100 else 0
  let eth_percent :=
    if eth_invested > 0 then (eth_value - eth_invested) / eth_invested * 100 else 0
  let total_percent :=
    if total_invested > 0 then profit_loss / total_invested * 100 else 0
  ⟨btc_value, eth_value, total_value, total_invested, profit_loss,
    btc_percent, eth_percent, total_percent⟩

/-- A price oracle for the C1 scenario: every date has price data, at the
constant prices bitcoin = 50000 and ethereum = 3000. -/
def c1_prices : ℤ → Option (ℚ × ℚ) := fun _ => some (50000, 3000)

/-- The step indices of the first n loop iterations of simulate_investments
whose date has price data (the iterations that are not skipped by
lines 257-260). -/
def dataSteps (gp : ℤ → Option (ℚ × ℚ)) (start : ℤ) (interval : ℕ) (n : ℕ) :
    List ℕ :=
  (List.range n).filter (fun k => (gp (start + k * interval)).isSome)

/-- Number of primary (bitcoin) purchases credited in the first n loop
iterations: one per iteration with price data (app.py lines 263-265). -/
def primaryCount (gp : ℤ → Option (ℚ × ℚ)) (start : ℤ) (interval : ℕ)
    (n : ℕ) : ℕ :=
  (dataSteps gp start interval n).length

/-- Number of secondary (ethereum) purchases credited in the first n loop
iterations: one per iteration with price data and even counter
(app.py lines 268-271). -/
def secondaryCount (gp : ℤ → Option (ℚ × ℚ)) (start : ℤ) (interval : ℕ)
    (n : ℕ) : ℕ :=
  ((dataSteps gp start interval n).filter (fun k => k % 2 = 0)).length

/-- A price oracle with a gap: price data exists only on day 7, so only the
second weekly step (counter 1) of a two-step run has data. -/
def gapPrices : ℤ → Option (ℚ × ℚ) := fun d => if d = 7 then some (1, 1) else none

/-- The quantities computed by calculate_performance_metrics, app.py
lines 319-355 and 398 (before the presentation rounding of
lines 367-411). -/
structure PerfMetrics where
  btc_current_value : ℚ
  eth_current_value : ℚ
  total_invested : ℚ
  total_current_value : ℚ
  total_profit_loss : ℚ
  total_roi_percent : ℚ
  btc_profit_loss : ℚ
  eth_profit_loss : ℚ
  btc_roi_percent : ℚ
  eth_roi_percent : ℚ
  years_invested : ℚ
  annualized_return : ℚ
  btc_allocation : ℚ
  eth_allocation : ℚ
  avg_btc_price : ℚ
  avg_eth_price : ℚ
  dca_vs_lump_sum : ℚ
  weekly_avg_investment : ℚ
  deriving DecidableEq, Repr

/-- app.py lines 305-415, calculate_performance_metrics, restricted to its
arithmetic core: inputs are the post-merge holdings and cost bases, the
current live prices, the number of days invested, and the optional start
prices returned by get_price_on_date(START_DATE).  The Python power
operator of line 337 is abstracted as the parameter pw (it is applied to a
ratio and an exponent; only its surrounding divisions are modelled
exactly). -/
def calculate_performance_metrics (pw : ℚ → ℚ → ℚ)
    (btc_invested eth_invested btc_held eth_held : ℚ)
    (btc_price eth_price : ℚ) (days_invested : ℚ)
    (start_prices : Option (ℚ × ℚ)) : PerfMetrics :=
  let btc_current_value := btc_held * btc_price
  let eth_current_value := eth_held * eth_price
  let total_invested := btc_invested + eth_invested
  let total_current_value := btc_current_value + eth_current_value
  let total_profit_loss := total_current_value - total_invested
  let total_roi_percent :=
    if total_invested > 0 then total_profit_loss / total_invested * 100 else 0
  let btc_profit_loss := btc_current_value - btc_invested
  let eth_profit_loss := eth_current_value - eth_invested
  let btc_roi_percent :=
    if btc_invested > 0 then btc_profit_loss / btc_invested * 100 else 0
  let eth_roi_percent :=
    if eth_invested > 0 then eth_profit_loss / eth_invested * 100 else 0
  let years_invested := days_invested / 365.25
  let annualized_return :=
    if years_invested > 0 ∧ total_invested > 0 then
      (pw (total_current_value / total_invested) (1 / years_invested) - 1) * 100
    else 0
  let btc_allocation :=
    if total_current_value > 0 then btc_current_value / total_current_value * 100 else 0
  let eth_allocation :=
    if total_current_value > 0 then eth_current_value / total_current_value * 100 else 0
  let avg_btc_price := if btc_held > 0 then btc_invested / btc_held else 0
  let avg_eth_price := if eth_held > 0 then eth_invested / eth_held else 0
  let dca_vs_lump_sum :=
    match start_prices with
    | none => 0
    | some (start_btc, start_eth) =>
      let lump_sum_btc := total_invested * 0.67 / start_btc
      let lump_sum_eth := total_invested * 0.33 / start_eth
      let lump_sum_value := lump_sum_btc * btc_price + lump_sum_eth * eth_price
      if lump_sum_value > 0 then
        (total_current_value - lump_sum_value) / lump_sum_value * 100
      else 0
  let weekly_avg_investment :=
    if days_invested > 0 then total_invested / (days_invested / 7) else 0
  ⟨btc_current_value, eth_current_value, total_invested, total_current_value,
    total_profit_loss, total_roi_percent, btc_profit_loss, eth_profit_loss,
    btc_roi_percent, eth_roi_percent, years_invested, annualized_return,
    btc_allocation, eth_allocation, avg_btc_price, avg_eth_price,
    dca_vs_lump_sum, weekly_avg_investment⟩

/-- app.py lines 1556-1557 in get_portfolio_metrics: total_profit_loss and
total_profit_loss_percent of the portfolio prelude. -/
def metrics_total_profit_loss_percent (total_value total_invested : ℚ) : ℚ :=
  if total_invested > 0 then (total_value - total_invested) / total_invested * 100 else 0

/-- Checked division: the Option-valued embedding of the division operator,
none exactly when the denominator is zero. -/
def cdiv (a b : ℚ) : Option ℚ := if b = 0 then none else some (a / b)

/-- A manual ledger transaction (manual_transactions.json entry as consumed
by app.py): coin, amount, price, type (buy or sell; tx.get with default
buy is modelled by the field always being present) and date. -/
structure Tx where
  coin : String
  amount : ℚ
  price : ℚ
  type : String
  date : ℤ
  deriving DecidableEq, Repr

/-- app.py lines 848-853: the buy transactions of the same coin dated on or
before the sell date. -/
def priorBuys (transactions : List Tx) (sell_tx : Tx) : List Tx :=
  transactions.filter
    (fun tx => decide (tx.coin = sell_tx.coin ∧ tx.type = "buy" ∧ tx.date ≤ sell_tx.date))

/-- The triple returned by calculate_transaction_profit_loss. -/
structure TxProfitLoss where
  profit_loss : ℚ
  profit_loss_percent : ℚ
  average_buy_price : ℚ
  deriving DecidableEq, Repr

/-- app.py lines 838-874, calculate_transaction_profit_loss: weighted
average buy price over all prior buys of the coin and the realized
profit/loss of the sell (values before the presentation rounding of
lines 871-873). -/
def calculate_transaction_profit_loss (transactions : List Tx) (sell_tx : Tx) :
    TxProfitLoss :=
  let buy_transactions := priorBuys transactions sell_tx
  let total_bought := (buy_transactions.map (fun tx => tx.amount)).sum
  if total_bought = 0 then ⟨0, 0, 0⟩
  else
    let weighted_buy_price :=
      (buy_transactions.map (fun tx => tx.amount * tx.price)).sum / total_bought
    let profit_loss := (sell_tx.price - weighted_buy_price) * sell_tx.amount
    let profit_loss_percent :=
      if weighted_buy_price > 0 then
        (sell_tx.price - weighted_buy_price) / weighted_buy_price * 100
      else 0
    ⟨profit_loss, profit_loss_percent, weighted_buy_price⟩

/-- Checked variant of calculate_transaction_profit_loss: every division of
lines 864 and 868 goes through cdiv. -/
def calculate_transaction_profit_loss_checked (transactions : List Tx)
    (sell_tx : Tx) : Option TxProfitLoss :=
  let buy_transactions := priorBuys transactions sell_tx
  let total_bought := (buy_transactions.map (fun tx => tx.amount)).sum
  if total_bought = 0 then some ⟨0, 0, 0⟩
  else do
    let weighted_buy_price ←
      cdiv ((buy_transactions.map (fun tx => tx.amount * tx.price)).sum) total_bought
    let profit_loss := (sell_tx.price - weighted_buy_price) * sell_tx.amount
    let profit_loss_percent ←
      if weighted_buy_price > 0 then
        (cdiv (sell_tx.price - weighted_buy_price) weighted_buy_price).map (· * 100)
      else some 0
    some ⟨profit_loss, profit_loss_percent, weighted_buy_price⟩

/-- One iteration of the maximum-drawdown loop of app.py lines 1607-1611:
the state is the pair (peak, max_drawdown so far). -/
def mddStep (s : ℚ × ℚ) (v : ℚ) : ℚ × ℚ :=
  let peak := if v > s.1 then v else s.1
  let drawdown := if peak > 0 then (peak - v) / peak else 0
  (peak, max s.2 drawdown)

/-- app.py lines 1604-1611: running-peak maximum drawdown over the series
of total portfolio values.  The peak starts at the first element
(line 1605) and the loop then runs over the whole series including that
first element.  The code reaches this loop only with at least two history
points (line 1573); the empty case returns 0 here. -/
def max_drawdown : List ℚ → ℚ
  | [] => 0
  | v0 :: rest => (List.foldl mddStep (v0, 0) (v0 :: rest)).2

/-- Checked variant of the maximum-drawdown loop. -/
def mddStepChecked (s : ℚ × ℚ) (v : ℚ) : Option (ℚ × ℚ) := do
  let peak := if v > s.1 then v else s.1
  let drawdown ← if peak > 0 then cdiv (peak - v) peak else some 0
  some (peak, max s.2 drawdown)

/-- Checked variant of max_drawdown. -/
def max_drawdown_checked : List ℚ → Option ℚ
  | [] => some 0
  | v0 :: rest => ((v0 :: rest).foldlM mddStepChecked (v0, 0)).map (fun s => s.2)

/-- app.py lines 1618-1624: 95% Value-at-Risk of the daily-return series
and its dollar equivalent.  Python sorted() is embedded as insertionSort
(both are sorts: on rationals the sorted permutation is unique), and the
index int(len(daily_returns) * 0.05) is embedded as the exact
len * 5 / 100 (the float product only differs from the exact value by an
error far below the truncation granularity at these list sizes). -/
def var95 (daily_returns : List ℚ) (total_value : ℚ) : ℚ × ℚ :=
  if 20 ≤ daily_returns.length then
    let sorted_returns := List.insertionSort (· ≤ ·) daily_returns
    let v := sorted_returns.getD (daily_returns.length * 5 / 100) 0
    (v, v * total_value)
  else (0, 0)

/-- app.py lines 1577-1583: daily returns of the history series; a return
is recorded only for consecutive points whose earlier value is positive. -/
def daily_returns_of : List ℚ → List ℚ
  | [] => []
  | [_] => []
  | prev :: curr :: rest =>
    (if prev > 0 then [(curr - prev) / prev] else []) ++ daily_returns_of (curr :: rest)

/-- statistics.mean as used on line 1593: sum divided by length. -/
def meanOf (xs : List ℚ) : ℚ := xs.sum / (xs.length : ℚ)

/-- The sample variance inside statistics.stdev (line 1594): sum of squared
deviations from the mean divided by n − 1. -/
def varianceOf (xs : List ℚ) : ℚ :=
  ((xs.map (fun x => (x - meanOf xs) ^ 2)).sum) / ((xs.length : ℚ) - 1)

/-- statistics.stdev (line 1594): square root of the sample variance; the
square root is abstracted as the parameter sq (only the division inside
the variance is modelled exactly). -/
def stdevOf (sq : ℚ → ℚ) (xs : List ℚ) : ℚ := sq (varianceOf xs)

/-- The risk and composition quantities computed by get_portfolio_metrics,
app.py lines 1576-1624 (before the presentation rounding of
lines 1626-1651). -/
structure RiskMetrics where
  avg_return : ℚ
  volatility : ℚ
  annualized_return : ℚ
  annualized_volatility : ℚ
  sharpe : ℚ
  max_drawdown_value : ℚ
  btc_allocation : ℚ
  eth_allocation : ℚ
  var_95 : ℚ
  var_95_dollar : ℚ
  deriving DecidableEq, Repr

/-- app.py lines 1576-1624: the risk-analytics core of
get_portfolio_metrics, as a function of the history value series, the two
cost bases, and the current total portfolio value.  math.sqrt is
abstracted: sq is applied to the sample variance (statistics.stdev) and
sqrt365 stands for math.sqrt(365); only the divisions are modelled
exactly. -/
def risk_metrics (sq : ℚ → ℚ) (sqrt365 : ℚ) (history : List ℚ)
    (btc_invested eth_invested total_value : ℚ) : RiskMetrics :=
  let daily_returns := daily_returns_of history
  let avg_return := if daily_returns = [] then 0 else meanOf daily_returns
  let volatility := if 1 < daily_returns.length then stdevOf sq daily_returns else 0
  let annualized_return := avg_return * 365
  let annualized_volatility := volatility * sqrt365
  let risk_free_rate : ℚ := 0.02
  let sharpe :=
    if annualized_volatility > 0 then
      (annualized_return - risk_free_rate) / annualized_volatility
    else 0
  let md := max_drawdown history
  let total_invested := btc_invested + eth_invested
  let btc_allocation := if total_invested > 0 then btc_invested / total_invested else 0
  let eth_allocation := if total_invested > 0 then eth_invested / total_invested else 0
  let v := var95 daily_returns total_value
  ⟨avg_return, volatility, annualized_return, annualized_volatility, sharpe,
    md, btc_allocation, eth_allocation, v.1, v.2⟩

/-- Checked variant of one simulator step: the two per-asset price
divisions of lines 264 and 270 go through cdiv. -/
def simStepChecked (btc_amount eth_amount : ℚ) (k : ℕ) (price : Option (ℚ × ℚ))
    (s : SimState) : Option SimState :=
  match price with
  | none => some s
  | some (btc_price, eth_price) => do
    let qb ← cdiv btc_amount btc_price
    let s1 : SimState :=
      { s with btc_held := s.btc_held + qb,
               btc_total_usd := s.btc_total_usd + DEFAULT_BTC_TOTAL }
    if k % 2 = 0 then do
      let qe ← cdiv eth_amount eth_price
      some { s1 with eth_held := s1.eth_held + qe,
                     eth_total_usd := s1.eth_total_usd + DEFAULT_ETH_TOTAL }
    else some s1

/-- Checked variant of the simulator loop. -/
def runSimChecked (gp : ℤ → Option (ℚ × ℚ)) (start : ℤ) (interval : ℕ)
    (btc_amount eth_amount : ℚ) : ℕ → Option SimState
  | 0 => some ⟨0, 0, 0, 0⟩
  | n + 1 =>
    (runSimChecked gp start interval btc_amount eth_amount n).bind
      (simStepChecked btc_amount eth_amount n (gp (start + n * interval)))

/-- A percent computation of the shape `num / den * 100 if den > 0 else 0`
with its division checked: the guard makes the checked division total. -/
def guarded_pct (num den : ℚ) : Option ℚ :=
  if den > 0 then (cdiv num den).map (· * 100) else some 0

/-- A division of the shape `num / den if den > 0 else 0` with its division
checked. -/
def guarded_div (num den : ℚ) : Option ℚ :=
  if den > 0 then cdiv num den else some 0

/-- Checked variant of the portfolio valuation: the three percent
divisions of lines 550-552 go through cdiv. -/
def portfolio_view_checked (btc_held eth_held btc_invested eth_invested
    btc_price eth_price : ℚ) : Option PortfolioView := do
  let btc_value := btc_held * btc_price
  let eth_value := eth_held * eth_price
  let total_value := btc_value + eth_value
  let total_invested := btc_invested + eth_invested
  let profit_loss := total_value - total_invested
  let btc_percent ← guarded_pct (btc_value - btc_invested) btc_invested
  let eth_percent ← guarded_pct (eth_value - eth_invested) eth_invested
  let total_percent ← guarded_pct profit_loss total_invested
  some ⟨btc_value, eth_value, total_value, total_invested, profit_loss,
    btc_percent, eth_percent, total_percent⟩

/-- The annualized-return expression of line 337 with its divisions
checked, pw standing for the Python power operator. -/
def ann_checked (pw : ℚ → ℚ → ℚ) (years total_invested total_current_value : ℚ) :
    Option ℚ :=
  if years > 0 ∧ total_invested > 0 then do
    let ratio_value ← cdiv total_current_value total_invested
    let exponent ← cdiv 1 years
    some ((pw ratio_value exponent - 1) * 100)
  else some 0

/-- The DCA-vs-lump-sum expression of lines 348-355 with its divisions
checked. -/
def dca_checked (start_prices : Option (ℚ × ℚ))
    (total_invested total_current_value btc_price eth_price : ℚ) : Option ℚ :=
  match start_prices with
  | none => some 0
  | some (start_btc, start_eth) => do
    let lump_sum_btc ← cdiv (total_invested * 0.67) start_btc
    let lump_sum_eth ← cdiv (total_invested * 0.33) start_eth
    let lump_sum_value := lump_sum_btc * btc_price + lump_sum_eth * eth_price
    if lump_sum_value > 0 then
      (cdiv (total_current_value - lump_sum_value) lump_sum_value).map (· * 100)
    else some 0

/-- The weekly-average-investment expression of line 398 with its divisions
checked. -/
def wai_checked (total_invested days_invested : ℚ) : Option ℚ :=
  if days_invested > 0 then do
    let weeks_val ← cdiv days_invested 7
    cdiv total_invested weeks_val
  else some 0

/-- Checked variant of calculate_performance_metrics: every division of
lines 326-355 and 398 goes through cdiv. -/
def calculate_performance_metrics_checked (pw : ℚ → ℚ → ℚ)
    (btc_invested eth_invested btc_held eth_held : ℚ)
    (btc_price eth_price : ℚ) (days_invested : ℚ)
    (start_prices : Option (ℚ × ℚ)) : Option PerfMetrics := do
  let btc_current_value := btc_held * btc_price
  let eth_current_value := eth_held * eth_price
  let total_invested := btc_invested + eth_invested
  let total_current_value := btc_current_value + eth_current_value
  let total_profit_loss := total_current_value - total_invested
  let total_roi_percent ← guarded_pct total_profit_loss total_invested
  let btc_profit_loss := btc_current_value - btc_invested
  let eth_profit_loss := eth_current_value - eth_invested
  let btc_roi_percent ← guarded_pct btc_profit_loss btc_invested
  let eth_roi_percent ← guarded_pct eth_profit_loss eth_invested
  let years_invested ← cdiv days_invested 365.25
  let annualized_return ← ann_checked pw years_invested total_invested total_current_value
  let btc_allocation ← guarded_pct btc_current_value total_current_value
  let eth_allocation ← guarded_pct eth_current_value total_current_value
  let avg_btc_price ← guarded_div btc_invested btc_held
  let avg_eth_price ← guarded_div eth_invested eth_held
  let dca_vs_lump_sum ←
    dca_checked start_prices total_invested total_current_value btc_price eth_price
  let weekly_avg_investment ← wai_checked total_invested days_invested
  some ⟨btc_current_value, eth_current_value, total_invested,
    total_current_value, total_profit_loss, total_roi_percent,
    btc_profit_loss, eth_profit_loss, btc_roi_percent, eth_roi_percent,
    years_invested, annualized_return, btc_allocation, eth_allocation,
    avg_btc_price, avg_eth_price, dca_vs_lump_sum, weekly_avg_investment⟩

/-- Checked variant of the daily-return extraction. -/
def daily_returns_checked : List ℚ → Option (List ℚ)
  | [] => some []
  | [_] => some []
  | prev :: curr :: rest => do
    let tail ← daily_returns_checked (curr :: rest)
    if prev > 0 then do
      let r ← cdiv (curr - prev) prev
      some (r :: tail)
    else some tail

/-- Checked variant of statistics.mean. -/
def meanChecked (xs : List ℚ) : Option ℚ := cdiv xs.sum (xs.length : ℚ)

/-- Checked variant of the sample variance. -/
def varianceChecked (xs : List ℚ) : Option ℚ := do
  let m ← meanChecked xs
  cdiv ((xs.map (fun x => (x - m) ^ 2)).sum) ((xs.length : ℚ) - 1)

/-- Checked variant of statistics.stdev. -/
def stdevChecked (sq : ℚ → ℚ) (xs : List ℚ) : Option ℚ :=
  (varianceChecked xs).map sq

/-- The guarded mean of line 1593 with its division checked. -/
def mean_checked_if (xs : List ℚ) : Option ℚ :=
  if xs = [] then some 0 else meanChecked xs

/-- The guarded sample standard deviation of line 1594 with its division
checked. -/
def vol_checked_if (sq : ℚ → ℚ) (xs : List ℚ) : Option ℚ :=
  if 1 < xs.length then stdevChecked sq xs else some 0

/-- Checked variant of the risk-analytics core. -/
def risk_metrics_checked (sq : ℚ → ℚ) (sqrt365 : ℚ) (history : List ℚ)
    (btc_invested eth_invested total_value : ℚ) : Option RiskMetrics := do
  let daily_returns ← daily_returns_checked history
  let avg_return ← mean_checked_if daily_returns
  let volatility ← vol_checked_if sq daily_returns
  let annualized_return := avg_return * 365
  let annualized_volatility := volatility * sqrt365
  let risk_free_rate : ℚ := 0.02
  let sharpe ← guarded_div (annualized_return - risk_free_rate) annualized_volatility
  let md ← max_drawdown_checked history
  let total_invested := btc_invested + eth_invested
  let btc_allocation ← guarded_div btc_invested total_invested
  let eth_allocation ← guarded_div eth_invested total_invested
  let v := var95 daily_returns total_value
  some ⟨avg_return, volatility, annualized_return, annualized_volatility,
    sharpe, md, btc_allocation, eth_allocation, v.1, v.2⟩

/-- Modelled from the SPEC wording of section 4.5 (for claim C2 only): the
universal percent-change convention, percent = (held × price − invested) /
invested × 100 when invested > 0, and exactly 0 when invested ≤ 0.  The
code-side definitions above are compared against this one. -/
def spec_percent_change (held invested price : ℚ) : ℚ :=
  if 0 < invested then (held * price - invested) / invested * 100 else 0

/-- The names bound at the top level of the module app.py: the imported
names of lines 1-11, the module globals assigned in lines 16-68, and every
top-level def.  This is the global environment a name lookup inside a
request handler falls back to (none of the handlers bind
generate_portfolio_history locally, and no builtin has that name).
generate_portfolio_history appears only at its two call sites
(lines 1568 and 1671) and is bound nowhere in the repository. -/
def appModuleNames : List String :=
  ["Flask", "jsonify", "request", "g", "Response", "stream_with_context",
   "CORS", "Cache", "Limiter", "get_remote_address", "requests", "json",
   "os", "time", "logging", "csv", "io", "threading", "smtplib",
   "datetime", "timedelta", "wraps", "MIMEText", "MIMEMultipart",
   "load_dotenv", "app", "cache", "limiter", "logger", "cors_origins",
   "cors_origins_list", "START_DATE", "TODAY", "DEFAULT_BTC_INVEST",
   "DEFAULT_ETH_INVEST", "DEFAULT_BTC_TOTAL", "DEFAULT_ETH_TOTAL",
   "CACHE_FILE", "MANUAL_TX_FILE", "ALERTS_FILE", "EMAIL_CONFIG",
   "price_cache", "load_manual_transactions", "load_price_alerts",
   "save_price_alerts", "send_email_alert", "check_price_alerts",
   "start_price_alert_monitor", "get_price_on_date", "simulate_investments",
   "apply_manual_transactions", "calculate_performance_metrics",
   "calculate_weekly_performance", "monitor_performance",
   "get_current_prices_cached", "portfolio", "portfolio_history",
   "daily_profit_loss", "live_profit_loss", "add_transaction",
   "get_current_prices", "calculate_transaction_profit_loss",
   "current_prices", "transaction_analysis", "get_transactions",
   "performance_metrics", "validation", "log_request_info",
   "log_response_info", "get_price_alerts", "create_price_alert",
   "delete_price_alert", "test_price_alert", "manually_check_alerts",
   "export_portfolio_csv", "export_transactions_csv", "export_history_csv",
   "health_check", "cache_stats", "clear_cache", "get_portfolio_metrics",
   "get_benchmark_comparison"]

/-- Result of evaluating a Python expression: a value, or a raised
exception carrying its class name. -/
inductive PyEval (α : Type) where
  | val (a : α)
  | exn (msg : String)

/-- Python global-name resolution at a call site inside a handler: if the
name is bound in the module environment the call itself runs (its behavior
is the parameter call, which may in turn raise); an unbound name raises
NameError before any call happens. -/
def callByName {α : Type} (defined : List String) (name : String)
    (call : Unit → PyEval α) : PyEval α :=
  if defined.contains name then call () else PyEval.exn "NameError"

/-- app.py lines 1542-1662, the analytics portfolio-metrics handler: the
body up to line 1567 (simulation, manual merge, live prices — any of which
may itself raise) is abstracted as pre; line 1568 then calls the global
name generate_portfolio_history, and the rest of the body
(lines 1569-1658, which can return 200, 400 or 500) is abstracted as rest;
the top-level except of lines 1660-1662 converts any raised exception into
an HTTP 500 response. -/
def get_portfolio_metrics_route {α β : Type} (pre : PyEval α)
    (call : Unit → PyEval β) (rest : β → ℕ) : ℕ :=
  match pre with
  | PyEval.exn _ => 500
  | PyEval.val _ =>
    match callByName appModuleNames "generate_portfolio_history" call with
    | PyEval.exn _ => 500
    | PyEval.val h => rest h

/-- app.py lines 1664-1731, the /analytics/benchmarks handler: its body
calls the global name generate_portfolio_history first (line 1671); the
rest of the body (lines 1672-1727) is abstracted as rest, and the
top-level except of lines 1729-1731 converts any raised exception into an
HTTP 500 response. -/
def get_benchmark_comparison_route {β : Type} (call : Unit → PyEval β)
    (rest : β → ℕ) : ℕ :=
  match callByName appModuleNames "generate_portfolio_history" call with
  | PyEval.exn _ => 500
  | PyEval.val h => rest h

end CryptoTracker

namespace CryptoTracker

/-- C1: end-to-end simulator scenario.  With day 0 = 2025-01-25, weekly
frequency, amounts 100 and 50 (gross costs 102 and 51.8) and ten weekly
steps (days 0, 7, ..., 63) all priced at bitcoin = 50000 and
ethereum = 3000, simulate_investments returns btc_held = 1/50 = 0.02,
btc_total_usd = 1020, eth_held = 1/12 = 5 × (50/3000) (purchases at period
indices 0, 2, 4, 6, 8) and eth_total_usd = 259; valuing at the same prices
gives total invested 1279, total value 1250, profit_loss = −29 and percent
change −2900/1279, which is within 0.005 of −2.27. -/
theorem c1_end_to_end :
    simulate_investments c1_prices 0 63 "weekly" 100 50 = ⟨1020, 259, 1/50, 1/12⟩ ∧
    (let s := simulate_investments c1_prices 0 63 "weekly" 100 50
     let v := portfolio_view s.btc_held s.eth_held s.btc_total_usd s.eth_total_usd 50000 3000
     v.total_invested = 1279 ∧ v.total_value = 1250 ∧ v.profit_loss = -29 ∧
       v.total_percent = -2900 / 1279 ∧ |v.total_percent - (-227 / 100)| < 1 / 200) := by
  have hsim : simulate_investments c1_prices 0 63 "weekly" 100 50 = ⟨1020, 259, 1/50, 1/12⟩ := by
    show runSim c1_prices 0 7 100 50 (numSteps 0 63 7) = _
    norm_num [numSteps]
    norm_num [runSim, simStep, c1_prices, DEFAULT_BTC_TOTAL, DEFAULT_ETH_TOTAL]
  refine ⟨hsim, ?_⟩
  rw [hsim]
  norm_num [portfolio_view, abs]

/-- C2: percent-change convention.  Every percentage site — the per-asset
and total percent changes of the portfolio handler, the per-asset and
total ROI of calculate_performance_metrics, and the total profit-loss
percent of get_portfolio_metrics — equals (held × price − invested) /
invested × 100 when invested > 0 and is exactly 0 when invested ≤ 0,
i.e. each site coincides with spec_percent_change at its own
(held, invested, price) triple (for the total sites, with the aggregate
value in place of held × price). -/
theorem c2_percent_convention :
    ∀ bh eh bi ei bp ep : ℚ, ∀ pw : ℚ → ℚ → ℚ, ∀ days : ℚ, ∀ sp : Option (ℚ × ℚ),
      (portfolio_view bh eh bi ei bp ep).btc_percent = spec_percent_change bh bi bp ∧
      (portfolio_view bh eh bi ei bp ep).eth_percent = spec_percent_change eh ei ep ∧
      (portfolio_view bh eh bi ei bp ep).total_percent =
        (if 0 < bi + ei then (bh * bp + eh * ep - (bi + ei)) / (bi + ei) * 100 else 0) ∧
      (calculate_performance_metrics pw bi ei bh eh bp ep days sp).btc_roi_percent =
        spec_percent_change bh bi bp ∧
      (calculate_performance_metrics pw bi ei bh eh bp ep days sp).eth_roi_percent =
        spec_percent_change eh ei ep ∧
      (calculate_performance_metrics pw bi ei bh eh bp ep days sp).total_roi_percent =
        (if 0 < bi + ei then (bh * bp + eh * ep - (bi + ei)) / (bi + ei) * 100 else 0) ∧
      ∀ tv ti : ℚ, metrics_total_profit_loss_percent tv ti =
        (if 0 < ti then (tv - ti) / ti * 100 else 0) := by
  intro bh eh bi ei bp ep pw days sp
  refine ⟨?_, ?_, ?_, ?_, ?_, ?_, ?_⟩ <;>
    simp [portfolio_view, calculate_performance_metrics,
      metrics_total_profit_loss_percent, spec_percent_change]

/-- A skipped step leaves the state untouched. -/
lemma simStep_none (ba ea : ℚ) (k : ℕ) (s : SimState) :
    simStep ba ea k none s = s := rfl

/-- Per-step change of the secondary cost-basis accumulator: it grows by
DEFAULT_ETH_TOTAL exactly when the step has price data and the counter is
even. -/
lemma simStep_eth_total_usd (ba ea : ℚ) (k : ℕ) (price : Option (ℚ × ℚ))
    (s : SimState) :
    (simStep ba ea k price s).eth_total_usd =
      s.eth_total_usd + (if price.isSome ∧ k % 2 = 0 then DEFAULT_ETH_TOTAL else 0) := by
  rcases price with _ | ⟨bp, ep⟩
  · simp [simStep]
  · by_cases h : k % 2 = 0 <;> simp [simStep, h]

/-- Per-step change of the primary cost-basis accumulator: it grows by
DEFAULT_BTC_TOTAL exactly when the step has price data. -/
lemma simStep_btc_total_usd (ba ea : ℚ) (k : ℕ) (price : Option (ℚ × ℚ))
    (s : SimState) :
    (simStep ba ea k price s).btc_total_usd =
      s.btc_total_usd + (if price.isSome then DEFAULT_BTC_TOTAL else 0) := by
  rcases price with _ | ⟨bp, ep⟩
  · simp [simStep]
  · by_cases h : k % 2 = 0 <;> simp [simStep, h]

lemma dataSteps_succ (gp : ℤ → Option (ℚ × ℚ)) (start : ℤ) (interval n : ℕ) :
    dataSteps gp start interval (n + 1) =
      dataSteps gp start interval n ++
        (if (gp (start + n * interval)).isSome then [n] else []) := by
  simp only [dataSteps, List.range_succ, List.filter_append]
  by_cases h : (gp (start + n * interval)).isSome <;> simp [h]

lemma primaryCount_succ (gp : ℤ → Option (ℚ × ℚ)) (start : ℤ) (interval n : ℕ) :
    primaryCount gp start interval (n + 1) =
      primaryCount gp start interval n +
        (if (gp (start + n * interval)).isSome then 1 else 0) := by
  simp only [primaryCount, dataSteps_succ, List.length_append]
  by_cases h : (gp (start + n * interval)).isSome <;> simp [h]

lemma secondaryCount_succ (gp : ℤ → Option (ℚ × ℚ)) (start : ℤ) (interval n : ℕ) :
    secondaryCount gp start interval (n + 1) =
      secondaryCount gp start interval n +
        (if (gp (start + n * interval)).isSome ∧ n % 2 = 0 then 1 else 0) := by
  simp only [secondaryCount, dataSteps_succ, List.filter_append, List.length_append]
  by_cases h : (gp (start + n * interval)).isSome
  · by_cases h2 : n % 2 = 0 <;> simp [h, h2, List.filter_cons]
  · simp [h]

/-- The secondary cost basis accumulated by the simulator equals the number
of secondary purchases times the fixed gross cost 51.8. -/
lemma runSim_eth_total_usd (gp : ℤ → Option (ℚ × ℚ)) (start : ℤ) (interval : ℕ)
    (ba ea : ℚ) (n : ℕ) :
    (runSim gp start interval ba ea n).eth_total_usd =
      secondaryCount gp start interval n * DEFAULT_ETH_TOTAL := by
  induction n with
  | zero => simp [runSim, secondaryCount, dataSteps]
  | succ n ih =>
    rw [runSim, simStep_eth_total_usd, ih, secondaryCount_succ]
    by_cases h : (gp (start + n * interval)).isSome ∧ n % 2 = 0 <;>
      simp [h, add_mul]

/-- The primary cost basis accumulated by the simulator equals the number
of primary purchases times the fixed gross cost 102. -/
lemma runSim_btc_total_usd (gp : ℤ → Option (ℚ × ℚ)) (start : ℤ) (interval : ℕ)
    (ba ea : ℚ) (n : ℕ) :
    (runSim gp start interval ba ea n).btc_total_usd =
      primaryCount gp start interval n * DEFAULT_BTC_TOTAL := by
  induction n with
  | zero => simp [runSim, primaryCount, dataSteps]
  | succ n ih =>
    rw [runSim, simStep_btc_total_usd, ih, primaryCount_succ]
    by_cases h : (gp (start + n * interval)).isSome <;>
      simp [h, add_mul]

/-- The number of even indices below n is the rounded-up half of n. -/
lemma evens_below (n : ℕ) :
    ((List.range n).filter (fun k => k % 2 = 0)).length = (n + 1) / 2 := by
  induction n with
  | zero => simp
  | succ n ih =>
    rw [List.range_succ, List.filter_append]
    by_cases h : n % 2 = 0 <;> simp [h, ih, List.filter_cons] <;> omega

/-- C3 counterexample: with price data only on day 7 (gapPrices), a
two-step weekly run has N = 1 primary-purchase period but zero secondary
purchases (the only data-bearing step has odd counter 1), whereas the
claim predicts ceil(N/2) = (1 + 1) / 2 = 1; the simulator state confirms
one primary purchase (102 invested) and no secondary purchase. -/
theorem c3_counterexample :
    primaryCount gapPrices 0 7 2 = 1 ∧
    secondaryCount gapPrices 0 7 2 = 0 ∧
    (runSim gapPrices 0 7 100 50 2).btc_total_usd = 102 ∧
    (runSim gapPrices 0 7 100 50 2).eth_total_usd = 0 ∧
    ¬ (secondaryCount gapPrices 0 7 2 =
        (primaryCount gapPrices 0 7 2 + 1) / 2) := by
  refine ⟨by decide, by decide, ?_, ?_, by decide⟩ <;>
    norm_num [runSim, simStep, gapPrices, DEFAULT_BTC_TOTAL, DEFAULT_ETH_TOTAL]

/-- C3 (amended): a secondary purchase is credited on a step exactly when
that step has price data and its counter k is even (first two conjuncts:
per-step characterization and the accumulated totals it induces); and
across any simulated span of n steps in which EVERY step has price data
(hence n primary-purchase periods), the number of secondary purchases is
ceil(n/2) = (n + 1) / 2.  The original claim, which asserted ceil(N/2) for
every span containing N primary-purchase periods even when some steps lack
data, is refuted by c3_counterexample. -/
theorem c3_secondary_cadence :
    (∀ ba ea : ℚ, ∀ k : ℕ, ∀ price : Option (ℚ × ℚ), ∀ s : SimState,
      (simStep ba ea k price s).eth_total_usd =
        s.eth_total_usd +
          (if price.isSome ∧ k % 2 = 0 then DEFAULT_ETH_TOTAL else 0)) ∧
    (∀ gp : ℤ → Option (ℚ × ℚ), ∀ start : ℤ, ∀ interval : ℕ, ∀ ba ea : ℚ, ∀ n : ℕ,
      (runSim gp start interval ba ea n).eth_total_usd =
        secondaryCount gp start interval n * DEFAULT_ETH_TOTAL ∧
      (runSim gp start interval ba ea n).btc_total_usd =
        primaryCount gp start interval n * DEFAULT_BTC_TOTAL) ∧
    (∀ gp : ℤ → Option (ℚ × ℚ), ∀ start : ℤ, ∀ interval n : ℕ,
      (∀ k, k < n → (gp (start + k * interval)).isSome) →
        primaryCount gp start interval n = n ∧
        secondaryCount gp start interval n = (n + 1) / 2) := by
  refine ⟨simStep_eth_total_usd, fun gp start interval ba ea n =>
    ⟨runSim_eth_total_usd gp start interval ba ea n,
     runSim_btc_total_usd gp start interval ba ea n⟩,
    fun gp start interval n hall => ?_⟩
  have hsteps : dataSteps gp start interval n = List.range n := by
    unfold dataSteps
    apply List.filter_eq_self.mpr
    intro k hk
    exact by simpa using hall k (List.mem_range.mp hk)
  constructor
  · simp [primaryCount, hsteps]
  · simp [secondaryCount, hsteps, evens_below]

/-- C3 witness: applying the all-data cadence to a five-step span with
universal price data gives five primary purchases and ceil(5/2) = 3
secondary purchases. -/
theorem c3_witness :
    primaryCount (fun _ => some (1, 1)) 0 7 5 = 5 ∧
    secondaryCount (fun _ => some (1, 1)) 0 7 5 = (5 + 1) / 2 :=
  c3_secondary_cadence.2.2 (fun _ => some (1, 1)) 0 7 5 (fun _ _ => rfl)

/-- C6: simulator skip semantics and totality.  A step whose date has no
price data leaves all four accumulators unchanged (first conjunct), while
the loop still consumes that step index: the whole n-step run equals the
fold of the purchase step over only the data-bearing steps, each keeping
its ORIGINAL counter value (second conjunct), so skipped dates advance the
date and counter without crediting anything, and the simulation is a total
function that always returns the four accumulated totals. -/
theorem c6_skip_semantics :
    (∀ ba ea : ℚ, ∀ k : ℕ, ∀ s : SimState, simStep ba ea k none s = s) ∧
    (∀ gp : ℤ → Option (ℚ × ℚ), ∀ start : ℤ, ∀ interval : ℕ, ∀ ba ea : ℚ, ∀ n : ℕ,
      runSim gp start interval ba ea n =
        (dataSteps gp start interval n).foldl
          (fun s k => simStep ba ea k (gp (start + k * interval)) s)
          ⟨0, 0, 0, 0⟩) := by
  refine ⟨simStep_none, fun gp start interval ba ea n => ?_⟩
  induction n with
  | zero => simp [runSim, dataSteps]
  | succ n ih =>
    rw [runSim, ih, dataSteps_succ, List.foldl_append]
    rcases h : gp (start + n * interval) with _ | p
    · simp [h, simStep_none]
    · simp [h]

/-- C4: FIFO realized profit and loss formula.  For a sell of X units at
sell_price when the ledger holds exactly the buys of A units at p1 and B
units at p2 for the same coin, both dated on or before the sell date, with
A + B > 0 and A + B ≥ X, the computed average buy price is
(A p1 + B p2)/(A + B) and the computed profit_loss is
(sell_price − (A p1 + B p2)/(A + B)) × X, before presentation rounding. -/
theorem c4_fifo_profit_loss (coin : String) (A B p1 p2 X sell_price : ℚ)
    (d1 d2 ds : ℤ) (hd1 : d1 ≤ ds) (hd2 : d2 ≤ ds)
    (hAB : 0 < A + B) (_hX : X ≤ A + B) :
    (calculate_transaction_profit_loss
        [⟨coin, A, p1, "buy", d1⟩, ⟨coin, B, p2, "buy", d2⟩]
        ⟨coin, X, sell_price, "sell", ds⟩).average_buy_price =
      (A * p1 + B * p2) / (A + B) ∧
    (calculate_transaction_profit_loss
        [⟨coin, A, p1, "buy", d1⟩, ⟨coin, B, p2, "buy", d2⟩]
        ⟨coin, X, sell_price, "sell", ds⟩).profit_loss =
      (sell_price - (A * p1 + B * p2) / (A + B)) * X := by
  have hne : A + B ≠ 0 := ne_of_gt hAB
  simp [calculate_transaction_profit_loss, priorBuys, hd1, hd2, hne]

/-- C4 witness: buying 1 unit at 10 and 1 unit at 20 then selling 2 units
at 30 gives average buy price 15 and profit 30. -/
theorem c4_witness :
    (calculate_transaction_profit_loss
        [⟨"bitcoin", 1, 10, "buy", 0⟩, ⟨"bitcoin", 1, 20, "buy", 0⟩]
        ⟨"bitcoin", 2, 30, "sell", 0⟩).average_buy_price = (1 * 10 + 1 * 20) / (1 + 1) ∧
    (calculate_transaction_profit_loss
        [⟨"bitcoin", 1, 10, "buy", 0⟩, ⟨"bitcoin", 1, 20, "buy", 0⟩]
        ⟨"bitcoin", 2, 30, "sell", 0⟩).profit_loss = (30 - (1 * 10 + 1 * 20) / (1 + 1)) * 2 :=
  c4_fifo_profit_loss "bitcoin" 1 1 10 20 2 30 0 0 0 (le_refl 0) (le_refl 0)
    (by norm_num) (by norm_num)

/-- C5: a sell with no prior buys of its coin on or before the sell date
reports profit_loss, profit_loss_percent and average_buy_price all exactly
0, and (checked variant) no division by zero occurs on this path. -/
theorem c5_sell_without_buys (transactions : List Tx) (sell_tx : Tx)
    (h : priorBuys transactions sell_tx = []) :
    calculate_transaction_profit_loss transactions sell_tx = ⟨0, 0, 0⟩ ∧
    calculate_transaction_profit_loss_checked transactions sell_tx = some ⟨0, 0, 0⟩ := by
  constructor <;>
    simp [calculate_transaction_profit_loss,
      calculate_transaction_profit_loss_checked, h]

/-- C5 witness: an empty ledger has no prior buys, so a sell of 1 bitcoin
at price 100 reports all-zero realized figures. -/
theorem c5_witness :
    calculate_transaction_profit_loss [] ⟨"bitcoin", 1, 100, "sell", 0⟩ = ⟨0, 0, 0⟩ ∧
    calculate_transaction_profit_loss_checked [] ⟨"bitcoin", 1, 100, "sell", 0⟩ =
      some ⟨0, 0, 0⟩ :=
  c5_sell_without_buys [] ⟨"bitcoin", 1, 100, "sell", 0⟩ rfl

/-- The max-drawdown accumulator never decreases along the fold. -/
lemma mdd_fold_le (l : List ℚ) : ∀ s : ℚ × ℚ, s.2 ≤ (List.foldl mddStep s l).2 := by
  induction l with
  | nil => intro s; exact le_refl _
  | cons v l ih =>
    intro s
    refine le_trans ?_ (ih (mddStep s v))
    simp [mddStep]

/-- Along a non-decreasing tail the peak tracks the current value and no
positive drawdown is ever recorded. -/
lemma mdd_fold_chain : ∀ (l : List ℚ) (p m : ℚ), 0 ≤ m →
    List.Chain' (· ≤ ·) (p :: l) →
    List.foldl mddStep (p, m) l = (l.getLastD p, m) := by
  intro l
  induction l with
  | nil => intro p m _ _; rfl
  | cons v l ih =>
    intro p m hm hchain
    have hpv : p ≤ v := (List.chain'_cons.mp hchain).1
    have hchain2 : List.Chain' (· ≤ ·) (v :: l) := (List.chain'_cons.mp hchain).2
    have hstep : mddStep (p, m) v = (v, m) := by
      have hpeak : (if v > p then v else p) = v := by
        rcases lt_or_eq_of_le hpv with h | h
        · simp [h]
        · simp [h]
      simp only [mddStep, hpeak]
      have : (if v > 0 then (v - v) / v else 0) = 0 := by
        split <;> simp
      rw [this, max_eq_left hm]
    rw [List.foldl_cons, hstep, ih v m hm hchain2, List.getLastD_cons]

/-- C7: for every non-empty portfolio-value series with positive first
value, the running-peak maximum drawdown is non-negative; and whenever the
series is monotonically non-decreasing it is exactly 0. -/
theorem c7_max_drawdown (v0 : ℚ) (rest : List ℚ) (hpos : 0 < v0) :
    0 ≤ max_drawdown (v0 :: rest) ∧
    (List.Chain' (· ≤ ·) (v0 :: rest) → max_drawdown (v0 :: rest) = 0) := by
  have hfirst : mddStep (v0, 0) v0 = (v0, 0) := by
    have hpeak : (if v0 > v0 then v0 else v0) = v0 := by simp
    simp only [mddStep, hpeak]
    have : (if v0 > 0 then (v0 - v0) / v0 else 0) = 0 := by
      split <;> simp
    rw [this, max_self]
  constructor
  · show 0 ≤ (List.foldl mddStep (v0, 0) (v0 :: rest)).2
    rw [List.foldl_cons, hfirst]
    exact mdd_fold_le rest (v0, 0)
  · intro hchain
    show (List.foldl mddStep (v0, 0) (v0 :: rest)).2 = 0
    rw [List.foldl_cons, hfirst, mdd_fold_chain rest v0 0 le_rfl hchain]

/-- C7 witness: the strictly rising series 1, 2 has zero maximum drawdown,
which is in particular non-negative. -/
theorem c7_witness : 0 ≤ max_drawdown [1, 2] ∧ max_drawdown [1, 2] = 0 :=
  ⟨(c7_max_drawdown 1 [2] (by norm_num)).1,
   (c7_max_drawdown 1 [2] (by norm_num)).2
     (List.chain'_pair.mpr (by norm_num))⟩

/-- C8: with fewer than 20 return samples both var_95 and its dollar
equivalent are exactly 0; with n ≥ 20 samples var_95 is the element at
index int(n × 0.05) = n × 5 / 100 of the ascending-sorted return series (a
sorted permutation of the input series) and the dollar VaR is var_95 times
the current total portfolio value. -/
theorem c8_var95 (daily_returns : List ℚ) (total_value : ℚ) :
    (daily_returns.length < 20 → var95 daily_returns total_value = (0, 0)) ∧
    (20 ≤ daily_returns.length →
      ∃ s : List ℚ, s.Perm daily_returns ∧ s.Sorted (· ≤ ·) ∧
        (var95 daily_returns total_value).1 =
          s.getD (daily_returns.length * 5 / 100) 0 ∧
        (var95 daily_returns total_value).2 =
          (var95 daily_returns total_value).1 * total_value) := by
  constructor
  · intro h
    simp [var95, Nat.not_le.mpr h]
  · intro h
    refine ⟨List.insertionSort (· ≤ ·) daily_returns,
      List.perm_insertionSort _ _, List.sorted_insertionSort _ _, ?_, ?_⟩ <;>
      simp [var95, h]

/-- C8 witness: a single-sample series reports (0, 0); with the 20-sample
series 0, 1, ..., 19 there is a sorted permutation whose entry at index
20 × 5 / 100 = 1 is the reported var_95, and the dollar VaR is var_95
times the portfolio value 10. -/
theorem c8_witness :
    var95 [(1 : ℚ)] 5 = (0, 0) ∧
    (∃ s : List ℚ, s.Perm ((List.range 20).map (fun k => (k : ℚ))) ∧
      s.Sorted (· ≤ ·) ∧
      (var95 ((List.range 20).map (fun k => (k : ℚ))) 10).1 =
        s.getD (((List.range 20).map (fun k => (k : ℚ))).length * 5 / 100) 0 ∧
      (var95 ((List.range 20).map (fun k => (k : ℚ))) 10).2 =
        (var95 ((List.range 20).map (fun k => (k : ℚ))) 10).1 * 10) :=
  ⟨(c8_var95 [(1 : ℚ)] 5).1 (by norm_num),
   (c8_var95 ((List.range 20).map (fun k => (k : ℚ))) 10).2
     (by decide)⟩

lemma cdiv_ne (a b : ℚ) (h : b ≠ 0) : cdiv a b = some (a / b) := by
  simp [cdiv, h]

lemma cdiv_365 (a : ℚ) : cdiv a 365.25 = some (a / 365.25) :=
  cdiv_ne a 365.25 (by norm_num)

lemma guarded_pct_eq (num den : ℚ) :
    guarded_pct num den = some (if den > 0 then num / den * 100 else 0) := by
  unfold guarded_pct
  split_ifs with h
  · simp [cdiv, ne_of_gt h]
  · rfl

lemma guarded_div_eq (num den : ℚ) :
    guarded_div num den = some (if den > 0 then num / den else 0) := by
  unfold guarded_div
  split_ifs with h
  · simp [cdiv, ne_of_gt h]
  · rfl

lemma ann_checked_eq (pw : ℚ → ℚ → ℚ) (y t tcv : ℚ) :
    ann_checked pw y t tcv =
      some (if y > 0 ∧ t > 0 then (pw (tcv / t) (1 / y) - 1) * 100 else 0) := by
  unfold ann_checked
  split_ifs with h
  · simp [cdiv, ne_of_gt h.1, ne_of_gt h.2]
  · rfl

lemma wai_checked_eq (t d : ℚ) :
    wai_checked t d = some (if d > 0 then t / (d / 7) else 0) := by
  unfold wai_checked
  split_ifs with h
  · have h7 : (7 : ℚ) ≠ 0 := by norm_num
    have hd7 : d / 7 ≠ 0 := div_ne_zero (ne_of_gt h) h7
    simp [cdiv, h7, hd7]
  · rfl

lemma dca_checked_some (ti tcv bp ep sb se : ℚ) (hsb : sb ≠ 0) (hse : se ≠ 0) :
    dca_checked (some (sb, se)) ti tcv bp ep =
      some (
        let lump_sum_btc := ti * 0.67 / sb
        let lump_sum_eth := ti * 0.33 / se
        let lump_sum_value := lump_sum_btc * bp + lump_sum_eth * ep
        if lump_sum_value > 0 then (tcv - lump_sum_value) / lump_sum_value * 100
        else 0) := by
  unfold dca_checked
  simp only [cdiv_ne _ _ hsb, cdiv_ne _ _ hse, Option.bind_eq_bind, Option.some_bind]
  split_ifs with h
  · simp [cdiv, ne_of_gt h]
  · rfl

lemma portfolio_view_checked_eq (bh eh bi ei bp ep : ℚ) :
    portfolio_view_checked bh eh bi ei bp ep =
      some (portfolio_view bh eh bi ei bp ep) := by
  unfold portfolio_view_checked portfolio_view
  simp only [guarded_pct_eq, Option.bind_eq_bind, Option.some_bind]

lemma perf_checked_eq (pw : ℚ → ℚ → ℚ) (bi ei bh eh bp ep days : ℚ)
    (sp : Option (ℚ × ℚ)) (hsp : ∀ sb se, sp = some (sb, se) → sb ≠ 0 ∧ se ≠ 0) :
    calculate_performance_metrics_checked pw bi ei bh eh bp ep days sp =
      some (calculate_performance_metrics pw bi ei bh eh bp ep days sp) := by
  rcases sp with _ | ⟨sb, se⟩
  · unfold calculate_performance_metrics_checked calculate_performance_metrics
      dca_checked
    simp only [guarded_pct_eq, guarded_div_eq, cdiv_365, ann_checked_eq,
      wai_checked_eq, Option.bind_eq_bind, Option.some_bind]
  · obtain ⟨hsb, hse⟩ := hsp sb se rfl
    unfold calculate_performance_metrics_checked calculate_performance_metrics
    simp only [guarded_pct_eq, guarded_div_eq, cdiv_365, ann_checked_eq,
      wai_checked_eq, dca_checked_some _ _ _ _ _ _ hsb hse,
      Option.bind_eq_bind, Option.some_bind]



lemma simStepChecked_eq (ba ea : ℚ) (k : ℕ) (price : Option (ℚ × ℚ)) (s : SimState)
    (h : ∀ bp ep, price = some (bp, ep) → bp ≠ 0 ∧ ep ≠ 0) :
    simStepChecked ba ea k price s = some (simStep ba ea k price s) := by
  rcases price with _ | ⟨bp, ep⟩
  · rfl
  · obtain ⟨h1, h2⟩ := h bp ep rfl
    by_cases hk : k % 2 = 0 <;> simp [simStepChecked, simStep, cdiv, h1, h2, hk]

lemma runSimChecked_eq (gp : ℤ → Option (ℚ × ℚ)) (start : ℤ) (interval : ℕ)
    (ba ea : ℚ) (n : ℕ)
    (h : ∀ d bp ep, gp d = some (bp, ep) → bp ≠ 0 ∧ ep ≠ 0) :
    runSimChecked gp start interval ba ea n =
      some (runSim gp start interval ba ea n) := by
  induction n with
  | zero => rfl
  | succ n ih =>
    rw [runSimChecked, runSim, ih]
    simp only [Option.some_bind]
    exact simStepChecked_eq ba ea n _ _ (fun bp ep hp => h _ bp ep hp)

lemma daily_returns_checked_eq :
    ∀ history : List ℚ, daily_returns_checked history = some (daily_returns_of history)
  | [] => rfl
  | [_] => rfl
  | prev :: curr :: rest => by
    rw [daily_returns_checked, daily_returns_of,
      daily_returns_checked_eq (curr :: rest)]
    by_cases h : prev > 0
    · simp [h, cdiv, ne_of_gt h]
    · simp [h]

lemma mean_checked_if_eq (xs : List ℚ) :
    mean_checked_if xs = some (if xs = [] then 0 else meanOf xs) := by
  unfold mean_checked_if
  split_ifs with h
  · rfl
  · have hlen : (xs.length : ℚ) ≠ 0 := by
      exact_mod_cast fun h0 => h (List.length_eq_zero.mp h0)
    simp [meanChecked, meanOf, cdiv, hlen]

lemma vol_checked_if_eq (sq : ℚ → ℚ) (xs : List ℚ) :
    vol_checked_if sq xs = some (if 1 < xs.length then stdevOf sq xs else 0) := by
  unfold vol_checked_if
  split_ifs with h
  · have hne : (xs.length : ℚ) ≠ 0 := by
      have : 0 < xs.length := Nat.lt_of_lt_of_le Nat.zero_lt_one h.le
      exact_mod_cast Nat.pos_iff_ne_zero.mp this
    have hlen1 : ((xs.length : ℚ) - 1) ≠ 0 := by
      have h1 : (1 : ℚ) < (xs.length : ℚ) := by exact_mod_cast h
      exact sub_ne_zero_of_ne (ne_of_gt h1)
    simp [stdevChecked, varianceChecked, meanChecked, stdevOf, varianceOf,
      meanOf, cdiv, hne, hlen1]
  · rfl

lemma mddStepChecked_eq (s : ℚ × ℚ) (v : ℚ) :
    mddStepChecked s v = some (mddStep s v) := by
  simp only [mddStepChecked, mddStep]
  by_cases h : (if v > s.1 then v else s.1) > 0
  · simp [h, cdiv, ne_of_gt h]
  · simp [h]

lemma foldlM_mdd (l : List ℚ) :
    ∀ s : ℚ × ℚ, l.foldlM mddStepChecked s = some (l.foldl mddStep s) := by
  induction l with
  | nil => intro s; rfl
  | cons v l ih =>
    intro s
    rw [List.foldlM_cons, mddStepChecked_eq, List.foldl_cons]
    simp only [Option.bind_eq_bind, Option.some_bind]
    exact ih (mddStep s v)

lemma max_drawdown_checked_eq (history : List ℚ) :
    max_drawdown_checked history = some (max_drawdown history) := by
  rcases history with _ | ⟨v0, rest⟩
  · rfl
  · simp only [max_drawdown_checked, max_drawdown, foldlM_mdd, Option.map_some']

lemma risk_checked_eq (sq : ℚ → ℚ) (sqrt365 : ℚ) (history : List ℚ)
    (bi ei tv : ℚ) :
    risk_metrics_checked sq sqrt365 history bi ei tv =
      some (risk_metrics sq sqrt365 history bi ei tv) := by
  unfold risk_metrics_checked risk_metrics
  simp only [daily_returns_checked_eq, mean_checked_if_eq, vol_checked_if_eq,
    guarded_div_eq, max_drawdown_checked_eq, Option.bind_eq_bind,
    Option.some_bind]


/-- C9: no unguarded division by zero in the analytics computations.  Each
of the simulator (per-asset price divisions), the portfolio valuator, the
performance-metrics computation (ROI, annualized return, allocations,
average purchase prices, lump-sum comparison, weekly average) and the
risk-analytics core (returns, mean, sample deviation, Sharpe, drawdown,
allocations, VaR), rewritten with every division checked, returns some of
its unchecked result: the checked failure case is unreachable.  The
simulator needs the precondition that every price served by the cache or
adapter is non-zero, and the lump-sum comparison needs it for the start
prices; every other division is protected by an explicit guard in the
code. -/
theorem c9_no_unguarded_division :
    (∀ gp : ℤ → Option (ℚ × ℚ), ∀ start : ℤ, ∀ interval : ℕ, ∀ ba ea : ℚ, ∀ n : ℕ,
      (∀ d bp ep, gp d = some (bp, ep) → bp ≠ 0 ∧ ep ≠ 0) →
        runSimChecked gp start interval ba ea n =
          some (runSim gp start interval ba ea n)) ∧
    (∀ bh eh bi ei bp ep : ℚ,
      portfolio_view_checked bh eh bi ei bp ep =
        some (portfolio_view bh eh bi ei bp ep)) ∧
    (∀ pw : ℚ → ℚ → ℚ, ∀ bi ei bh eh bp ep days : ℚ, ∀ sp : Option (ℚ × ℚ),
      (∀ sb se, sp = some (sb, se) → sb ≠ 0 ∧ se ≠ 0) →
        calculate_performance_metrics_checked pw bi ei bh eh bp ep days sp =
          some (calculate_performance_metrics pw bi ei bh eh bp ep days sp)) ∧
    (∀ sq : ℚ → ℚ, ∀ sqrt365 : ℚ, ∀ history : List ℚ, ∀ bi ei tv : ℚ,
      risk_metrics_checked sq sqrt365 history bi ei tv =
        some (risk_metrics sq sqrt365 history bi ei tv)) :=
  ⟨runSimChecked_eq, portfolio_view_checked_eq, perf_checked_eq, risk_checked_eq⟩

/-- C9 witness: one checked simulator step over the everywhere-non-zero C1
price oracle, and the checked performance metrics at concrete non-zero
start prices, both return some of their unchecked results. -/
theorem c9_witness :
    runSimChecked c1_prices 0 7 100 50 1 = some (runSim c1_prices 0 7 100 50 1) ∧
    calculate_performance_metrics_checked (fun a _ => a) 1 1 1 1 2 3 10 (some (5, 6)) =
      some (calculate_performance_metrics (fun a _ => a) 1 1 1 1 2 3 10 (some (5, 6))) :=
  ⟨c9_no_unguarded_division.1 c1_prices 0 7 100 50 1
     (fun d bp ep h => by
        simp only [c1_prices, Option.some.injEq, Prod.mk.injEq] at h
        obtain ⟨h1, h2⟩ := h
        subst h1
        subst h2
        norm_num),
   c9_no_unguarded_division.2.2.1 (fun a _ => a) 1 1 1 1 2 3 10 (some (5, 6))
     (fun sb se h => by
        cases h
        norm_num)⟩

/-- C10: generate_portfolio_history is not among the names bound at the
top level of app.py, so the call on line 1568 (resp. 1671) raises a
NameError that each top-level except converts into an HTTP 500 payload:
whatever the earlier part of the handler body does and whatever the dead
remainder of the body would compute, both analytics endpoints always
answer 500 and can never return a success response. -/
theorem c10_analytics_always_500 :
    appModuleNames.contains "generate_portfolio_history" = false ∧
    (∀ (α β : Type) (pre : PyEval α) (call : Unit → PyEval β) (rest : β → ℕ),
      get_portfolio_metrics_route pre call rest = 500) ∧
    (∀ (β : Type) (call : Unit → PyEval β) (rest : β → ℕ),
      get_benchmark_comparison_route call rest = 500) := by
  have hnc : appModuleNames.contains "generate_portfolio_history" = false := by decide
  have hmem : "generate_portfolio_history" ∉ appModuleNames := by decide
  refine ⟨hnc, fun α β pre call rest => ?_, fun β call rest => ?_⟩
  · rcases pre with a | m
    · simp [get_portfolio_metrics_route, callByName, hmem]
    · rfl
  · simp [get_benchmark_comparison_route, callByName, hmem]

end CryptoTracker

